import Mathlib

/-! Verification of the advrider-notifier core: the Smart Fetch Planner
(`scraper/scraper.go`), the Subscriber Reconciliation engine and the
Interval Calculator (`poll/poll.go`), shallowly embedded in Lean 4.

Modelling conventions:
* `fetchSinglePage` performs network I/O; it is abstracted as a
  deterministic oracle `fetch : String → Except Unit Page` passed to the
  embedded `smartFetch`.  The embedding additionally records, in order,
  every URL handed to the oracle, so that request-count properties can be
  stated.
* Go `time.Time` values are modelled as `Int` nanoseconds with the Go
  zero value modelled as `0` (`IsZero` becomes `= 0`).
* Go `time.Duration` is `Int` nanoseconds.
-/

namespace AdvNotifier

/-- The `notifier.Post` record from `pkg/notifier` (all six fields). -/
structure Post where
  id : String
  author : String
  content : String
  htmlContent : String
  timestamp : String
  url : String
deriving Repr, DecidableEq

instance : Inhabited Post := ⟨⟨"", "", "", "", "", ""⟩⟩

/-- The `scraper.Page` structure: a parsed thread page with posts and pagination metadata. -/
structure Page where
  posts : List Post
  title : String
  lastPage : Nat
  currentPage : Nat
deriving Repr, DecidableEq

/-- Function `buildPageURL` from `scraper/scraper.go`: page 1 is the bare thread URL,
page `n > 1` appends `/page-n` after stripping one trailing slash
(`strings.TrimSuffix(baseURL, "/")`). -/
def buildPageURL (baseURL : String) (pageNum : Nat) : String :=
  if pageNum ≤ 1 then baseURL
  else (if baseURL.toList.getLast? = some '/'
        then String.mk baseURL.toList.dropLast else baseURL)
    ++ "/page-" ++ toString pageNum

deriving instance DecidableEq for Except

/-- Function `smartFetch` from `scraper/scraper.go` (lines 78–147).  The returned
`List String` is the ordered log of URLs passed to `fetchSinglePage`
(abstracted as the oracle `fetch`).  Control flow mirrors the source:
fetch page 1; stop if single page or already last; fetch the last page;
fetch the second-to-last page only when `lastSeenPostID` is non-empty and
absent from the posts of the last page, tolerating an error on that third
fetch by continuing with only the posts of the last page. -/
def smartFetch (fetch : String → Except Unit Page)
    (threadURL lastSeenPostID : String) : Except Unit Page × List String :=
  match fetch threadURL with
  | .error e => (.error e, [threadURL])
  | .ok firstPage =>
    if firstPage.lastPage ≤ 1 ∨ firstPage.currentPage = firstPage.lastPage then
      (.ok firstPage, [threadURL])
    else
      let lastPageURL := buildPageURL threadURL firstPage.lastPage
      match fetch lastPageURL with
      | .error e => (.error e, [threadURL, lastPageURL])
      | .ok lastPg =>
        let found := lastPg.posts.any fun post => post.id == lastSeenPostID
        let needsPreviousPage := lastSeenPostID ≠ "" ∧ found = false
        if needsPreviousPage ∧ 1 < firstPage.lastPage then
          let secondToLastURL := buildPageURL threadURL (firstPage.lastPage - 1)
          match fetch secondToLastURL with
          | .error _ =>
            (.ok ⟨lastPg.posts, firstPage.title, firstPage.lastPage, lastPg.currentPage⟩,
              [threadURL, lastPageURL, secondToLastURL])
          | .ok secondToLastPage =>
            (.ok ⟨secondToLastPage.posts ++ lastPg.posts, firstPage.title,
                firstPage.lastPage, lastPg.currentPage⟩,
              [threadURL, lastPageURL, secondToLastURL])
        else
          (.ok ⟨lastPg.posts, firstPage.title, firstPage.lastPage, lastPg.currentPage⟩,
            [threadURL, lastPageURL])

/-- Function `SmartFetch` from `scraper/scraper.go` (lines 70–76): the exported
wrapper projecting posts and title out of the `Page` of `smartFetch`. -/
def SmartFetch (fetch : String → Except Unit Page)
    (threadURL lastSeenPostID : String) :
    Except Unit (List Post × String) × List String :=
  match smartFetch fetch threadURL lastSeenPostID with
  | (.error e, calls) => (.error e, calls)
  | (.ok page, calls) => (.ok (page.posts, page.title), calls)

theorem smartFetch_calls_le_three (fetch : String → Except Unit Page)
    (threadURL lastSeenPostID : String) :
    (smartFetch fetch threadURL lastSeenPostID).2.length ≤ 3 := by
  unfold smartFetch
  rcases hf : fetch threadURL with e | firstPage
  · simp
  · simp only
    split
    · simp
    · rcases hl : fetch (buildPageURL threadURL firstPage.lastPage) with e | lastPg
      · simp
      · simp only
        split
        · rcases hs : fetch (buildPageURL threadURL (firstPage.lastPage - 1)) with
            e | secondToLastPage <;> simp
        · simp

/-- Two-page example thread used to exercise `smartFetch` with an empty
last-seen identifier: page 1 holds `exPostA1`, page 2 holds `exPostB1`. -/
def exPostA1 : Post := ⟨"a1", "alice", "first", "", "", ""⟩

def exPostB1 : Post := ⟨"b1", "bob", "second", "", "", ""⟩

def exFetchTwoPage : String → Except Unit Page := fun url =>
  if url = "https://t" then .ok ⟨[exPostA1], "T", 2, 1⟩
  else if url = "https://t/page-2" then .ok ⟨[exPostB1], "T", 2, 2⟩
  else .error ()

/-- Three-page example thread whose last-seen identifier `"q2"` sits on
page 2, so it is absent from the last page. -/
def exPost1 : Post := ⟨"q1", "a", "one", "", "", ""⟩

def exPost2 : Post := ⟨"q2", "b", "two", "", "", ""⟩

def exPost3 : Post := ⟨"q3", "c", "three", "", "", ""⟩

def exFetchThreePage : String → Except Unit Page := fun url =>
  if url = "https://v" then .ok ⟨[exPost1], "V", 3, 1⟩
  else if url = "https://v/page-3" then .ok ⟨[exPost3], "V", 3, 3⟩
  else if url = "https://v/page-2" then .ok ⟨[exPost2], "V", 3, 2⟩
  else .error ()

/-- Three-page example thread where fetching the second-to-last page
(page 2) fails. -/
def exPostU1 : Post := ⟨"u1", "a", "one", "", "", ""⟩

def exPostU3 : Post := ⟨"u3", "c", "three", "", "", ""⟩

def exFetchThirdFails : String → Except Unit Page := fun url =>
  if url = "https://u" then .ok ⟨[exPostU1], "U", 3, 1⟩
  else if url = "https://u/page-3" then .ok ⟨[exPostU3], "U", 3, 3⟩
  else .error ()

/-- C1: one invocation of `SmartFetch` hands at most three URLs to the
fetch primitive `fetchSinglePage`, for every thread URL and every
last-seen post identifier (the empty one included), regardless of the
page count of the thread. -/
theorem C1_smartFetch_at_most_three_fetches (fetch : String → Except Unit Page)
    (threadURL lastSeenPostID : String) :
    (SmartFetch fetch threadURL lastSeenPostID).2.length ≤ 3 := by
  unfold SmartFetch
  rcases h : smartFetch fetch threadURL lastSeenPostID with ⟨r, calls⟩
  have := smartFetch_calls_le_three fetch threadURL lastSeenPostID
  rw [h] at this
  rcases r with e | page <;> simpa using this

/-- C2 counterexample: on a two-page thread with an empty last-seen
identifier (a first-time check), `smartFetch` performs only 2 fetches and
returns only the posts of the last page — it does not fetch the
second-to-last page and does not prepend the posts of page 1,
contradicting the claim that
the empty identifier also triggers the 3-request path. -/
theorem C2_counterexample_empty_lastSeen :
    (smartFetch exFetchTwoPage "https://t" "").2.length = 2 ∧
    (smartFetch exFetchTwoPage "https://t" "").1 = .ok ⟨[exPostB1], "T", 2, 2⟩ ∧
    [exPostB1] ≠ [exPostA1, exPostB1] := by
  decide

/-- C2 (amended): whenever the last-seen identifier is NON-EMPTY and not
found among the posts of the last page, on a thread with more than one page,
`smartFetch` fetches the second-to-last page (3 requests total) and — when
that fetch succeeds — prepends its posts to the posts of the last page, so the
returned list contains the posts of page N-1 then page N in order for an
N-page thread.  (The code only sets `needsPreviousPage` inside
`if lastSeenPostID != ""`; an empty identifier never triggers the third
fetch.) -/
theorem C2_nonempty_lastSeen_prepends_second_to_last
    (fetch : String → Except Unit Page) (threadURL lastSeenPostID : String)
    (firstPage lastPg secondToLastPage : Page)
    (hf : fetch threadURL = .ok firstPage)
    (hmulti : ¬ (firstPage.lastPage ≤ 1 ∨ firstPage.currentPage = firstPage.lastPage))
    (hl : fetch (buildPageURL threadURL firstPage.lastPage) = .ok lastPg)
    (hseen : lastSeenPostID ≠ "")
    (hnotfound : (lastPg.posts.any fun post => post.id == lastSeenPostID) = false)
    (hs : fetch (buildPageURL threadURL (firstPage.lastPage - 1)) = .ok secondToLastPage) :
    smartFetch fetch threadURL lastSeenPostID =
      (.ok ⟨secondToLastPage.posts ++ lastPg.posts, firstPage.title,
          firstPage.lastPage, lastPg.currentPage⟩,
       [threadURL, buildPageURL threadURL firstPage.lastPage,
        buildPageURL threadURL (firstPage.lastPage - 1)]) := by
  have hgt : 1 < firstPage.lastPage := by
    push_neg at hmulti
    omega
  unfold smartFetch
  rw [hf]
  simp only
  rw [if_neg hmulti, hl]
  simp only
  rw [if_pos ⟨⟨hseen, hnotfound⟩, hgt⟩, hs]

/-- C2 witness: the amended theorem applied to the concrete three-page
thread with last-seen identifier `"q2"` (present only on page 2). -/
theorem C2_witness_three_page_thread :
    smartFetch exFetchThreePage "https://v" "q2" =
      (.ok ⟨(⟨[exPost2], "V", 3, 2⟩ : Page).posts ++
            (⟨[exPost3], "V", 3, 3⟩ : Page).posts,
          (⟨[exPost1], "V", 3, 1⟩ : Page).title,
          (⟨[exPost1], "V", 3, 1⟩ : Page).lastPage,
          (⟨[exPost3], "V", 3, 3⟩ : Page).currentPage⟩,
       ["https://v", buildPageURL "https://v" (⟨[exPost1], "V", 3, 1⟩ : Page).lastPage,
        buildPageURL "https://v" ((⟨[exPost1], "V", 3, 1⟩ : Page).lastPage - 1)]) :=
  C2_nonempty_lastSeen_prepends_second_to_last exFetchThreePage "https://v" "q2"
    ⟨[exPost1], "V", 3, 1⟩ ⟨[exPost3], "V", 3, 3⟩ ⟨[exPost2], "V", 3, 2⟩
    (by decide) (by decide) (by decide) (by decide) (by decide) (by decide)

/-- C10: if the third fetch (the second-to-last page) returns an error,
`smartFetch` does not fail: it returns the posts of the last page together
with the title of the first page (and still performed 3 fetch attempts). -/
theorem C10_third_fetch_error_returns_last_page_only
    (fetch : String → Except Unit Page) (threadURL lastSeenPostID : String)
    (firstPage lastPg : Page)
    (hf : fetch threadURL = .ok firstPage)
    (hmulti : ¬ (firstPage.lastPage ≤ 1 ∨ firstPage.currentPage = firstPage.lastPage))
    (hl : fetch (buildPageURL threadURL firstPage.lastPage) = .ok lastPg)
    (hseen : lastSeenPostID ≠ "")
    (hnotfound : (lastPg.posts.any fun post => post.id == lastSeenPostID) = false)
    (hs : fetch (buildPageURL threadURL (firstPage.lastPage - 1)) = .error ()) :
    smartFetch fetch threadURL lastSeenPostID =
      (.ok ⟨lastPg.posts, firstPage.title, firstPage.lastPage, lastPg.currentPage⟩,
       [threadURL, buildPageURL threadURL firstPage.lastPage,
        buildPageURL threadURL (firstPage.lastPage - 1)]) := by
  have hgt : 1 < firstPage.lastPage := by
    push_neg at hmulti
    omega
  unfold smartFetch
  rw [hf]
  simp only
  rw [if_neg hmulti, hl]
  simp only
  rw [if_pos ⟨⟨hseen, hnotfound⟩, hgt⟩, hs]

/-- C10 witness: the concrete three-page thread whose page-2 fetch fails;
`smartFetch` still succeeds with the posts of the last page and the title of page 1. -/
theorem C10_witness_third_fetch_fails :
    smartFetch exFetchThirdFails "https://u" "zz" =
      (.ok ⟨(⟨[exPostU3], "U", 3, 3⟩ : Page).posts,
          (⟨[exPostU1], "U", 3, 1⟩ : Page).title,
          (⟨[exPostU1], "U", 3, 1⟩ : Page).lastPage,
          (⟨[exPostU3], "U", 3, 3⟩ : Page).currentPage⟩,
       ["https://u", buildPageURL "https://u" (⟨[exPostU1], "U", 3, 1⟩ : Page).lastPage,
        buildPageURL "https://u" ((⟨[exPostU1], "U", 3, 1⟩ : Page).lastPage - 1)]) :=
  C10_third_fetch_error_returns_last_page_only exFetchThirdFails "https://u" "zz"
    ⟨[exPostU1], "U", 3, 1⟩ ⟨[exPostU3], "U", 3, 3⟩
    (by decide) (by decide) (by decide) (by decide) (by decide) (by decide)

/-! Section: Subscriber Reconciliation (`poll/poll.go`). -/

/-- The constant `maxPostsPerEmail` from `poll/poll.go` line 14. -/
def maxPostsPerEmail : Nat := 10

/-- The loop body of `findNewPosts` (`poll/poll.go` lines 430–437): walk
the fetched posts carrying the `foundLast` flag and the accumulated
`newPosts`; a post is appended when `foundLast` is already set (so the
matching post itself is excluded), and the flag is set after comparing
the id of the current post. -/
def findNewPostsLoop (lastPostID : String) :
    List Post → Bool → List Post → List Post × Bool
  | [], foundLast, newPosts => (newPosts, foundLast)
  | post :: rest, foundLast, newPosts =>
    findNewPostsLoop lastPostID rest (foundLast || (post.id == lastPostID))
      (if foundLast then newPosts ++ [post] else newPosts)

/-- Function `findNewPosts` from `poll/poll.go` (lines 426–451): run the loop; if
the marker was never found and `lastPostID` is non-empty, treat the
entire fetched list as new. -/
def findNewPosts (posts : List Post) (lastPostID : String) : List Post :=
  let r := findNewPostsLoop lastPostID posts false []
  if r.2 = false ∧ lastPostID ≠ "" then posts else r.1

/-- Modelled from the spec (its words for C3): "everything strictly after
\[the first occurrence of `lastPostID`\], in fetch order, is new; if the
marker is not found at all, treat the entire fetched set as new". -/
def newPostsSpec (posts : List Post) (lastPostID : String) : List Post :=
  if posts.any fun post => post.id == lastPostID then
    (posts.dropWhile fun post => post.id != lastPostID).tail
  else posts

theorem findNewPostsLoop_found (lastPostID : String) (posts : List Post) :
    ∀ acc, findNewPostsLoop lastPostID posts true acc = (acc ++ posts, true) := by
  induction posts with
  | nil => intro acc; simp [findNewPostsLoop]
  | cons post rest ih =>
    intro acc
    simp only [findNewPostsLoop, Bool.true_or, if_pos]
    rw [ih]
    simp

theorem findNewPostsLoop_from_start (lastPostID : String) (posts : List Post) :
    findNewPostsLoop lastPostID posts false [] =
      (if posts.any (fun post => post.id == lastPostID)
       then ((posts.dropWhile fun post => post.id != lastPostID).tail, true)
       else ([], false)) := by
  induction posts with
  | nil => simp [findNewPostsLoop]
  | cons post rest ih =>
    simp only [findNewPostsLoop, Bool.false_or, if_neg Bool.false_ne_true,
      List.any_cons, List.dropWhile]
    cases h : post.id == lastPostID with
    | true =>
      rw [findNewPostsLoop_found]
      have hb : (post.id != lastPostID) = false := by simp [bne, h]
      simp [h, hb]
    | false =>
      rw [ih]
      have hb : (post.id != lastPostID) = true := by simp [bne, h]
      simp [h, hb]

/-- C3: for every fetched post list and every non-empty `lastPostID`,
`findNewPosts` returns exactly the posts strictly after the first
occurrence of `lastPostID` in fetch order, and the entire fetched list
when `lastPostID` occurs nowhere. -/
theorem C3_findNewPosts_after_first_occurrence
    (posts : List Post) (lastPostID : String) (h : lastPostID ≠ "") :
    findNewPosts posts lastPostID = newPostsSpec posts lastPostID := by
  unfold findNewPosts newPostsSpec
  rw [findNewPostsLoop_from_start]
  by_cases hany : posts.any (fun post => post.id == lastPostID) = true
  · simp [hany]
  · simp [hany, h]

def wPost (n : Nat) : Post := ⟨"p" ++ toString n, "a", "c", "", "", ""⟩

/-- C3 witness: on `[p1,…,p5]` with marker `"p3"`, the theorem applies and
both sides evaluate to `[p4,p5]`. -/
theorem C3_witness_five_posts :
    ("p3" : String) ≠ "" ∧
    findNewPosts [wPost 1, wPost 2, wPost 3, wPost 4, wPost 5] "p3" =
      newPostsSpec [wPost 1, wPost 2, wPost 3, wPost 4, wPost 5] "p3" ∧
    newPostsSpec [wPost 1, wPost 2, wPost 3, wPost 4, wPost 5] "p3" =
      [wPost 4, wPost 5] :=
  ⟨by decide,
   C3_findNewPosts_after_first_occurrence
     [wPost 1, wPost 2, wPost 3, wPost 4, wPost 5] "p3" (by decide),
   by decide⟩

/-- The `notifier.Thread` record with `time.Time` fields as `Int` nanoseconds (Go
zero value = `0`). -/
structure ThreadState where
  lastPostTime : Int
  lastPolledAt : Int
  createdAt : Int
  threadURL : String
  threadID : String
  threadTitle : String
  lastPostID : String
deriving Repr, DecidableEq

/-- Observable outcome of processing one subscriber inside
`checkThreadForSubscribers`: the mutated thread record (the one handed to
`store.Save`), the post list passed to `emailer.SendNotification` (`none`
when the Emailer was not invoked), whether `store.Save` was invoked,
whether the save succeeded (`savedEmails[email]` set), and the
`hasUpdates` contribution. -/
structure StepResult where
  thread : ThreadState
  emailPayload : Option (List Post)
  saveAttempted : Bool
  savedEmail : Bool
  hasUpdate : Bool
deriving Repr, DecidableEq

/-- Function `sendNotificationAndSave` from `poll/poll.go` (lines 454–528): cap
the batch to the most recent `maxPostsPerEmail` posts, invoke the
Emailer (outcome abstracted as the oracle `sendOK`), and only on send
success advance `LastPostID` to the id of the latest post; `store.Save` is
invoked in both branches (outcome abstracted as `saveOK`). -/
def sendNotificationAndSave (sendOK saveOK : Bool) (t : ThreadState)
    (newPosts : List Post) (latestPost : Post) : StepResult :=
  let toSend := if newPosts.length > maxPostsPerEmail
    then newPosts.drop (newPosts.length - maxPostsPerEmail)
    else newPosts
  if sendOK = true then
    { thread := { t with lastPostID := latestPost.id },
      emailPayload := some toSend, saveAttempted := true,
      savedEmail := saveOK, hasUpdate := true }
  else
    { thread := t, emailPayload := some toSend, saveAttempted := true,
      savedEmail := saveOK, hasUpdate := false }

/-- The per-subscriber body of `checkThreadForSubscribers` from
`poll/poll.go` (lines 299–354), reached only when the fetched post list
is non-empty (the empty case is handled before the loop): stamp
`LastPolledAt := now`, take `LastPostTime` from the parsed timestamp of the
latest post when available, branch on an empty `LastPostID`
(recovery/baseline: record the latest id, save, never email), otherwise
diff via `findNewPosts` and either notify-and-save or save only. -/
def checkOneSubscriber (posts : List Post) (latestPostTime now : Int)
    (sendOK saveOK : Bool) (t0 : ThreadState) : StepResult :=
  let latestPost := posts.getLastD default
  let t1 := { t0 with lastPolledAt := now }
  let t2 := if latestPostTime ≠ 0 then { t1 with lastPostTime := latestPostTime } else t1
  if t2.lastPostID = "" then
    { thread := { t2 with lastPostID := latestPost.id },
      emailPayload := none, saveAttempted := true,
      savedEmail := saveOK, hasUpdate := false }
  else
    let newPosts := findNewPosts posts t2.lastPostID
    if newPosts.length > 0 then
      sendNotificationAndSave sendOK saveOK t2 newPosts latestPost
    else
      { thread := t2, emailPayload := none, saveAttempted := true,
        savedEmail := saveOK, hasUpdate := false }

/-- C4: for a subscriber/thread pair whose `lastPostID` is empty at
reconciliation time, with a non-empty fetched post list, reconciliation
records the identifier of the latest fetched post, invokes `store.Save`, and
never invokes the Emailer for that pair. -/
theorem C4_empty_marker_baseline_no_notification
    (posts : List Post) (latestPostTime now : Int) (sendOK saveOK : Bool)
    (t0 : ThreadState) (hne : posts ≠ []) (h0 : t0.lastPostID = "") :
    (checkOneSubscriber posts latestPostTime now sendOK saveOK t0).emailPayload = none ∧
    (checkOneSubscriber posts latestPostTime now sendOK saveOK t0).thread.lastPostID =
      (posts.getLastD default).id ∧
    (checkOneSubscriber posts latestPostTime now sendOK saveOK t0).saveAttempted = true := by
  unfold checkOneSubscriber
  by_cases hlt : latestPostTime ≠ 0 <;> simp [hlt, h0]

/-- C4 witness: concrete empty-marker subscriber on a two-post thread. -/
theorem C4_witness_concrete :
    ([wPost 1, wPost 2] : List Post) ≠ [] ∧
    (⟨0, 0, 0, "https://t", "42", "T", ""⟩ : ThreadState).lastPostID = "" ∧
    ((checkOneSubscriber [wPost 1, wPost 2] 5 9 true true
        ⟨0, 0, 0, "https://t", "42", "T", ""⟩).emailPayload = none ∧
     (checkOneSubscriber [wPost 1, wPost 2] 5 9 true true
        ⟨0, 0, 0, "https://t", "42", "T", ""⟩).thread.lastPostID =
       (([wPost 1, wPost 2] : List Post).getLastD default).id ∧
     (checkOneSubscriber [wPost 1, wPost 2] 5 9 true true
        ⟨0, 0, 0, "https://t", "42", "T", ""⟩).saveAttempted = true) :=
  ⟨by decide, by decide,
   C4_empty_marker_baseline_no_notification [wPost 1, wPost 2] 5 9 true true
     ⟨0, 0, 0, "https://t", "42", "T", ""⟩ (by decide) (by decide)⟩

/-- C5: when the Emailer fails (`sendOK = false`) for a subscriber with
new posts, reconciliation leaves `lastPostID` exactly as before, still
invokes `store.Save` with `lastPolledAt = now` (and the updated
`lastPostTime` when a timestamp was available), so `findNewPosts`
recomputes the same new-post set at the next due check. -/
theorem C5_send_failure_keeps_marker_saves_poll_time
    (posts : List Post) (latestPostTime now : Int) (saveOK : Bool)
    (t0 : ThreadState) (hid : t0.lastPostID ≠ "")
    (hnew : findNewPosts posts t0.lastPostID ≠ []) :
    (checkOneSubscriber posts latestPostTime now false saveOK t0).thread.lastPostID =
      t0.lastPostID ∧
    (checkOneSubscriber posts latestPostTime now false saveOK t0).thread.lastPolledAt = now ∧
    (latestPostTime ≠ 0 →
      (checkOneSubscriber posts latestPostTime now false saveOK t0).thread.lastPostTime =
        latestPostTime) ∧
    (checkOneSubscriber posts latestPostTime now false saveOK t0).saveAttempted = true ∧
    findNewPosts posts
        (checkOneSubscriber posts latestPostTime now false saveOK t0).thread.lastPostID =
      findNewPosts posts t0.lastPostID := by
  unfold checkOneSubscriber sendNotificationAndSave
  by_cases hlt : latestPostTime ≠ 0 <;>
    simp [hlt, hid, List.length_pos, hnew]

/-- C5 witness: marker `"p1"` on `[p1,p2]`, failing send. -/
theorem C5_witness_concrete :
    (⟨0, 0, 0, "https://t", "42", "T", "p1"⟩ : ThreadState).lastPostID ≠ "" ∧
    findNewPosts [wPost 1, wPost 2] "p1" ≠ [] ∧
    ((checkOneSubscriber [wPost 1, wPost 2] 5 9 false true
        ⟨0, 0, 0, "https://t", "42", "T", "p1"⟩).thread.lastPostID = "p1" ∧
     (checkOneSubscriber [wPost 1, wPost 2] 5 9 false true
        ⟨0, 0, 0, "https://t", "42", "T", "p1"⟩).thread.lastPolledAt = 9 ∧
     ((5 : Int) ≠ 0 →
       (checkOneSubscriber [wPost 1, wPost 2] 5 9 false true
          ⟨0, 0, 0, "https://t", "42", "T", "p1"⟩).thread.lastPostTime = 5) ∧
     (checkOneSubscriber [wPost 1, wPost 2] 5 9 false true
        ⟨0, 0, 0, "https://t", "42", "T", "p1"⟩).saveAttempted = true ∧
     findNewPosts [wPost 1, wPost 2]
         (checkOneSubscriber [wPost 1, wPost 2] 5 9 false true
            ⟨0, 0, 0, "https://t", "42", "T", "p1"⟩).thread.lastPostID =
       findNewPosts [wPost 1, wPost 2] "p1") :=
  ⟨by decide, by decide,
   C5_send_failure_keeps_marker_saves_poll_time [wPost 1, wPost 2] 5 9 true
     ⟨0, 0, 0, "https://t", "42", "T", "p1"⟩ (by decide) (by decide)⟩

/-- C6: with a non-empty new-post set, the Emailer is invoked with at most
`maxPostsPerEmail = 10` posts — exactly the last 10 in fetch order when
more accumulated — and only on send success is `lastPostID` advanced to
the identifier of the latest fetched post with `store.Save` invoked. -/
theorem C6_cap_batch_advance_only_on_success
    (posts : List Post) (latestPostTime now : Int) (sendOK saveOK : Bool)
    (t0 : ThreadState) (hid : t0.lastPostID ≠ "")
    (hnew : findNewPosts posts t0.lastPostID ≠ []) :
    (checkOneSubscriber posts latestPostTime now sendOK saveOK t0).emailPayload =
      some (if (findNewPosts posts t0.lastPostID).length > maxPostsPerEmail
        then (findNewPosts posts t0.lastPostID).drop
          ((findNewPosts posts t0.lastPostID).length - maxPostsPerEmail)
        else findNewPosts posts t0.lastPostID) ∧
    (∀ sent, (checkOneSubscriber posts latestPostTime now sendOK saveOK t0).emailPayload =
        some sent → sent.length ≤ maxPostsPerEmail) ∧
    (sendOK = true →
      (checkOneSubscriber posts latestPostTime now sendOK saveOK t0).thread.lastPostID =
        (posts.getLastD default).id ∧
      (checkOneSubscriber posts latestPostTime now sendOK saveOK t0).saveAttempted = true) ∧
    (sendOK = false →
      (checkOneSubscriber posts latestPostTime now sendOK saveOK t0).thread.lastPostID =
        t0.lastPostID) := by
  have hlen : (findNewPosts posts t0.lastPostID).length ≤ maxPostsPerEmail ∨
      (findNewPosts posts t0.lastPostID).length > maxPostsPerEmail := by omega
  unfold checkOneSubscriber sendNotificationAndSave
  by_cases hlt : latestPostTime ≠ 0 <;>
    rcases hsend : sendOK <;>
      by_cases hcap : (findNewPosts posts t0.lastPostID).length > maxPostsPerEmail <;>
        simp [hlt, hid, List.length_pos, hnew, hcap] <;> omega

/-- C6 witness: twelve new posts after marker `"p0"`; the payload is the
last 10, and with a successful send the marker advances to `"p12"`. -/
theorem C6_witness_concrete :
    (⟨0, 0, 0, "https://t", "42", "T", "p0"⟩ : ThreadState).lastPostID ≠ "" ∧
    findNewPosts
        [wPost 0, wPost 1, wPost 2, wPost 3, wPost 4, wPost 5, wPost 6, wPost 7,
         wPost 8, wPost 9, wPost 10, wPost 11, wPost 12] "p0" ≠ [] ∧
    ((checkOneSubscriber
        [wPost 0, wPost 1, wPost 2, wPost 3, wPost 4, wPost 5, wPost 6, wPost 7,
         wPost 8, wPost 9, wPost 10, wPost 11, wPost 12] 5 9 true true
        ⟨0, 0, 0, "https://t", "42", "T", "p0"⟩).emailPayload =
      some (if (findNewPosts
          [wPost 0, wPost 1, wPost 2, wPost 3, wPost 4, wPost 5, wPost 6, wPost 7,
           wPost 8, wPost 9, wPost 10, wPost 11, wPost 12] "p0").length > maxPostsPerEmail
        then (findNewPosts
            [wPost 0, wPost 1, wPost 2, wPost 3, wPost 4, wPost 5, wPost 6, wPost 7,
             wPost 8, wPost 9, wPost 10, wPost 11, wPost 12] "p0").drop
          ((findNewPosts
              [wPost 0, wPost 1, wPost 2, wPost 3, wPost 4, wPost 5, wPost 6, wPost 7,
               wPost 8, wPost 9, wPost 10, wPost 11, wPost 12] "p0").length -
            maxPostsPerEmail)
        else findNewPosts
          [wPost 0, wPost 1, wPost 2, wPost 3, wPost 4, wPost 5, wPost 6, wPost 7,
           wPost 8, wPost 9, wPost 10, wPost 11, wPost 12] "p0")) :=
  ⟨by decide, by decide,
   (C6_cap_batch_advance_only_on_success
     [wPost 0, wPost 1, wPost 2, wPost 3, wPost 4, wPost 5, wPost 6, wPost 7,
      wPost 8, wPost 9, wPost 10, wPost 11, wPost 12] 5 9 true true
     ⟨0, 0, 0, "https://t", "42", "T", "p0"⟩ (by decide) (by decide)).1⟩

/-! Section: Interval Calculator (`poll/poll.go`). -/

/-- The Go constant `minInterval`, 5 minutes in nanoseconds. -/
def minIntervalNs : Int := 5 * 60 * 1000000000

/-- The Go constant `maxInterval`, 4 hours in nanoseconds. -/
def maxIntervalNs : Int := 4 * 60 * 60 * 1000000000

/-- Function `CalculateInterval` from `poll/poll.go` (lines 577–620), interval
component only (the human-readable reason string is omitted).  Zero
`time.Time` inputs are modelled as `0`.  `rawIntervalNs` abstracts the
implementation-dependent value of
`time.Duration(float64(minInterval) * math.Pow(2, hoursSincePost/3))`:
the Go spec leaves the float-to-int64 conversion result open when the
float overflows, so the clamping is verified for every possible `Int`
outcome of that computation. -/
def CalculateInterval (lastPostTime lastPolledAt rawIntervalNs : Int) : Int :=
  if lastPolledAt = 0 then maxIntervalNs
  else if lastPostTime = 0 then maxIntervalNs
  else
    let clampedHigh := if rawIntervalNs > maxIntervalNs then maxIntervalNs else rawIntervalNs
    if clampedHigh < minIntervalNs then minIntervalNs else clampedHigh

/-- C7 counterexample: with `lastPolledAt` zero (never polled) the code
returns the maximum interval of 4 hours, not the claimed 5-minute
minimum. -/
theorem C7_counterexample_zero_lastPolledAt :
    CalculateInterval 1 0 0 = maxIntervalNs ∧ maxIntervalNs ≠ minIntervalNs := by
  decide

/-- C7 (amended): for every `lastPostTime` (and every outcome of the
float computation), when `lastPolledAt` is the zero time the Interval
Calculator returns the MAXIMUM interval of 4 hours with a diagnostic
reason; new subscriptions are nevertheless checked immediately because
`CheckAll` short-circuits zero `LastPolledAt` to an immediate check
without consulting `CalculateInterval`. -/
theorem C7_zero_lastPolledAt_returns_max
    (lastPostTime rawIntervalNs : Int) :
    CalculateInterval lastPostTime 0 rawIntervalNs = maxIntervalNs := by
  unfold CalculateInterval
  simp

/-- C8: for every pair of input times and every possible outcome of the
floating-point multiplier computation (overflow included), the returned
interval lies in `[5 min, 4 h]`. -/
theorem C8_interval_always_in_bounds
    (lastPostTime lastPolledAt rawIntervalNs : Int) :
    minIntervalNs ≤ CalculateInterval lastPostTime lastPolledAt rawIntervalNs ∧
    CalculateInterval lastPostTime lastPolledAt rawIntervalNs ≤ maxIntervalNs := by
  unfold CalculateInterval minIntervalNs maxIntervalNs
  split
  · omega
  · split
    · omega
    · dsimp only
      split <;> split <;> simp_all [minIntervalNs, maxIntervalNs]

/-! Section: fetch deduplication in `CheckAll` (`poll/poll.go`). -/

/-- The `uniqueThreads` grouping of `CheckAll` (`poll/poll.go` lines
83–103) restricted to what C9 needs: the set of canonical thread URLs.
Each subscription contributes its thread URLs; a URL already present
is not added again (`if _, exists := uniqueThreads[...]; !exists`). -/
def insertUniqueURL (acc : List String) (url : String) : List String :=
  if url ∈ acc then acc else acc ++ [url]

/-- Build the unique-thread URL collection from all subscriptions (each
given as its list of thread URLs). -/
def uniqueThreadURLs (subs : List (List String)) : List String :=
  subs.foldl (fun acc threadURLs => threadURLs.foldl insertUniqueURL acc) []

/-- One iteration of the thread loop of `CheckAll`, for C9: state is
(cycle-local fetch cache keys, ordered log of `SmartFetch` invocations).
A thread that is not due (`needsCheck` false) is skipped; otherwise
`fetchThreadPosts` (lines 359–423) consults the cache and invokes
`SmartFetch` only on a miss, then stores the result under the URL. -/
def cycleThreadStep (due : String → Bool) (st : List String × List String)
    (threadURL : String) : List String × List String :=
  if due threadURL = false then st
  else if threadURL ∈ st.1 then st
  else (st.1 ++ [threadURL], st.2 ++ [threadURL])

/-- The fetch log of one `CheckAll` cycle over the grouped threads. -/
def cycleFetchLog (due : String → Bool) (urls : List String) : List String :=
  (urls.foldl (cycleThreadStep due) ([], [])).2

theorem cycleFetchLog_invariant (due : String → Bool) (urls : List String) :
    ∀ st : List String × List String,
      (∀ u : String, u ∈ st.2 → u ∈ st.1) → st.2.Nodup →
      (∀ u : String, u ∈ (urls.foldl (cycleThreadStep due) st).2 →
        u ∈ (urls.foldl (cycleThreadStep due) st).1) ∧
      (urls.foldl (cycleThreadStep due) st).2.Nodup := by
  induction urls with
  | nil => intro st hsub hnd; exact ⟨hsub, hnd⟩
  | cons url rest ih =>
    intro st hsub hnd
    simp only [List.foldl_cons]
    by_cases hdue : due url = false
    · exact ih _ (by simpa [cycleThreadStep, hdue] using hsub)
        (by simpa [cycleThreadStep, hdue] using hnd)
    · by_cases hmem : url ∈ st.1
      · exact ih _ (by simp [cycleThreadStep, hdue, hmem]; exact hsub)
          (by simp [cycleThreadStep, hdue, hmem]; exact hnd)
      · have hstep : cycleThreadStep due st url = (st.1 ++ [url], st.2 ++ [url]) := by
          simp [cycleThreadStep, hdue, hmem]
        refine ih _ ?_ ?_ <;> rw [hstep]
        · intro u hu
          rcases List.mem_append.mp hu with hu | hu
          · exact List.mem_append.mpr (Or.inl (hsub u hu))
          · exact List.mem_append.mpr (Or.inr hu)
        · refine List.Nodup.append hnd (List.nodup_singleton url) ?_
          intro u hu hu'
          rw [List.mem_singleton] at hu'
          subst hu'
          exact hmem (hsub u hu)

/-- C9: within one poll cycle, each canonical thread URL appears at most
once in the `SmartFetch` invocation log, for every subscription list
(however many subscribers share a URL) and every due-ness oracle: all
subscribers of a URL reconcile against the single cached fetch. -/
theorem C9_url_fetched_at_most_once_per_cycle
    (due : String → Bool) (subs : List (List String)) (url : String) :
    (cycleFetchLog due (uniqueThreadURLs subs)).count url ≤ 1 := by
  have h := cycleFetchLog_invariant due (uniqueThreadURLs subs) ([], [])
    (by intro u hu; simp at hu) List.nodup_nil
  exact List.nodup_iff_count_le_one.mp h.2 url

end AdvNotifier
